import Mathlib

/-!
Shallow embedding of `gauge_proc_tools.py` from the cologauge repository:
quality control and redundancy fusion for triplicate rain-gauge series.

A scalar cell of a pandas Series/DataFrame holds an IEEE-754 double; it is
modelled by `Val`: either NaN, a finite value (represented exactly as a
rational), or a signed infinity.  A DataFrame with the three gauge columns
is modelled as a function `GaugeId → ℕ → Val` from column key and row
position to cell, and a pair-keyed frame as `Pair → ℕ → Val`.  The row
count `n` is passed explicitly where an operation (the centered rolling
window) needs to know where the index ends.
-/

namespace Cologauge

/-- Rounding of a rational to the nearest integer with ties to even, the
rounding rule numpy's `round` (used by `DataFrame.round`) follows.  The
first branch uses that `Int.fdiv` by the positive denominator is the
floor. -/
def roundTiesToEven (q : ℚ) : ℤ :=
  if q - q.num.fdiv q.den < 1 / 2 then q.num.fdiv q.den
  else if (1 : ℚ) / 2 < q - q.num.fdiv q.den then q.num.fdiv q.den + 1
  else if q.num.fdiv q.den % 2 = 0 then q.num.fdiv q.den
  else q.num.fdiv q.den + 1

/-- Model of one IEEE-754 double cell: NaN, an exact finite value, or a
signed infinity (`inf true` is positive infinity). -/
inductive Val where
  | nan : Val
  | fin : ℚ → Val
  | inf : Bool → Val
deriving DecidableEq

namespace Val

/-- Tests whether the cell is NaN (pandas "missing"). -/
def isNaN : Val → Bool
  | nan => true
  | _ => false

/-- IEEE negation. -/
def neg : Val → Val
  | nan => nan
  | fin q => fin (-q)
  | inf b => inf (!b)

/-- IEEE addition: NaN propagates, opposite infinities give NaN. -/
def add : Val → Val → Val
  | nan, _ => nan
  | _, nan => nan
  | fin a, fin b => fin (a + b)
  | fin _, inf b => inf b
  | inf b, fin _ => inf b
  | inf a, inf b => if a = b then inf a else nan

/-- IEEE subtraction. -/
def sub (x y : Val) : Val := add x (neg y)

/-- IEEE division.  A nonzero finite value divided by (unsigned) zero gives
an infinity carrying the numerator's sign, `0 / 0` and `inf / inf` give
NaN.  (Rationals have a single zero, which plays the role of `+0.0`.) -/
def div : Val → Val → Val
  | nan, _ => nan
  | _, nan => nan
  | fin a, fin b =>
      if b = 0 then (if a = 0 then nan else inf (decide (0 < a)))
      else fin (a / b)
  | fin _, inf _ => fin 0
  | inf s, fin b => if 0 ≤ b then inf s else inf (!s)
  | inf _, inf _ => nan

/-- Multiplication by a finite scalar (models `series * sign` in the
source, where `sign` is the integer `1` or `-1`). -/
def smul (c : ℚ) : Val → Val
  | nan => nan
  | fin q => fin (c * q)
  | inf b => if c = 0 then nan else if 0 < c then inf b else inf (!b)

/-- Comparison `v > c` against a finite constant; false for NaN. -/
def gtQ : Val → ℚ → Bool
  | nan, _ => false
  | fin q, c => decide (c < q)
  | inf b, _ => b

/-- Comparison `v < c` against a finite constant; false for NaN. -/
def ltQ : Val → ℚ → Bool
  | nan, _ => false
  | fin q, c => decide (q < c)
  | inf b, _ => !b

/-- Comparison `v >= c` against a finite constant; false for NaN. -/
def geQ : Val → ℚ → Bool
  | nan, _ => false
  | fin q, c => decide (c ≤ q)
  | inf b, _ => b

/-- Equality test against zero (the pandas `== 0` comparison); false for
NaN and infinities. -/
def eqZero : Val → Bool
  | fin q => decide (q = 0)
  | _ => false

/-- Model of `pandas.DataFrame.round(10)`: a finite value is rounded to
ten decimal places (ties to even, as in numpy), NaN and infinities are
unchanged. -/
def round10 : Val → Val
  | nan => nan
  | inf b => inf b
  | fin q => fin ((roundTiesToEven (q * 10 ^ 10) : ℚ) / 10 ^ 10)

end Val

/-- The three gauge column keys `"1"`, `"2"`, `"3"` (`gauge_ids` in the
source). -/
inductive GaugeId where
  | g1 : GaugeId
  | g2 : GaugeId
  | g3 : GaugeId
deriving DecidableEq

/-- The three pair column keys `"1-2"`, `"1-3"`, `"2-3"`. -/
inductive Pair where
  | p12 : Pair
  | p13 : Pair
  | p23 : Pair
deriving DecidableEq

/-- First gauge listed in the pair string (`pair_str.split("-")[0]`, also
the character `pair_str[0]` used for the sign convention). -/
def Pair.fst : Pair → GaugeId
  | Pair.p12 => GaugeId.g1
  | Pair.p13 => GaugeId.g1
  | Pair.p23 => GaugeId.g2

/-- Second gauge listed in the pair string (`pair_str.split("-")[1]`). -/
def Pair.snd : Pair → GaugeId
  | Pair.p12 => GaugeId.g2
  | Pair.p13 => GaugeId.g3
  | Pair.p23 => GaugeId.g3

/-- The module-level `pairs` dict restricted to single gauge keys: the two
pair strings a gauge belongs to, in the order listed in the source. -/
def pairs : GaugeId → Pair × Pair
  | GaugeId.g1 => (Pair.p12, Pair.p13)
  | GaugeId.g2 => (Pair.p12, Pair.p23)
  | GaugeId.g3 => (Pair.p13, Pair.p23)

/-- The `pairs["all"]` entry: all three pair strings. -/
def pairsAll : List Pair := [Pair.p12, Pair.p13, Pair.p23]

/-- The module-level `gauge_ids` list. -/
def gauge_ids : List GaugeId := [GaugeId.g1, GaugeId.g2, GaugeId.g3]

/-- The other two gauges (`list(set(gauge_ids) - set(gauge_id))` in the
source).  Python set iteration order is unspecified; the source only
combines the two symmetrically (an `or` of the same comparison), so the
fixed ascending order chosen here is observationally identical. -/
def otherGauges : GaugeId → GaugeId × GaugeId
  | GaugeId.g1 => (GaugeId.g2, GaugeId.g3)
  | GaugeId.g2 => (GaugeId.g1, GaugeId.g3)
  | GaugeId.g3 => (GaugeId.g1, GaugeId.g2)

/-- The sign convention of `validity_from_relative_diff`: `-1` when the
gauge is listed first in the pair string, else `1`. -/
def sign_of (g : GaugeId) (p : Pair) : ℚ := if p.fst = g then -1 else 1

/-- Three-gauge frame: column key and row position to cell. -/
abbrev TGF := GaugeId → ℕ → Val

/-- The centered rolling window of length `w` at row `i` of an index of
length `n` covers rows `i - w + 1 + offset` through `i + offset` with
`offset = (w - 1) / 2`, following pandas' `FixedWindowIndexer` with
`center=True`; this predicate says the whole window lies inside the
index. -/
def fullWindowAt (w n i : ℕ) : Prop :=
  w ≤ i + (w - 1) / 2 + 1 ∧ i + (w - 1) / 2 < n

instance (w n i : ℕ) : Decidable (fullWindowAt w n i) :=
  inferInstanceAs (Decidable (_ ∧ _))

/-- Cells of the centered window of length `w` at row `i` (meaningful when
`fullWindowAt w n i` holds). -/
def windowCells (w i : ℕ) (s : ℕ → Val) : List Val :=
  (List.range w).map (fun j => s (i + (w - 1) / 2 + 1 - w + j))

/-- Model of one column of `df.rolling(window=w, center=True).mean()` with
the default `min_periods` (equal to the window length): the result is NaN
unless the whole window lies inside the index and every cell in it is
non-NaN, and otherwise is the window sum divided by `w`. -/
def rollingMeanCentered (w n : ℕ) (s : ℕ → Val) (i : ℕ) : Val :=
  if fullWindowAt w n i then
    if ((windowCells w i s).filter (fun v => !v.isNaN)).length = w then
      Val.div ((windowCells w i s).foldl Val.add (Val.fin 0)) (Val.fin w)
    else Val.nan
  else Val.nan

/-- All three rolled columns of a frame. -/
def rolled (df : TGF) (w n : ℕ) : TGF :=
  fun g => rollingMeanCentered w n (df g)

/-- Model of `validity_from_zeros`: gauge `g` is not valid at a row iff
its rounded value equals zero while one of the other two rounded values
exceeds `min_R` (the source rounds the whole frame to 10 decimals before
comparing). -/
def validity_from_zeros (df : TGF) (min_R : ℚ) (g : GaugeId) (i : ℕ) : Bool :=
  !((df g i).round10.eqZero &&
    (((df (otherGauges g).1 i).round10.gtQ min_R) ||
     ((df (otherGauges g).2 i).round10.gtQ min_R)))

/-- Model of `get_gauge_diff`: per pair, the difference of the two
columns, after rounding the frame to 10 decimals. -/
def get_gauge_diff (df : TGF) (p : Pair) (i : ℕ) : Val :=
  Val.sub ((df p.fst i).round10) ((df p.snd i).round10)

/-- Model of `get_gauge_relative_diff`: the (rounded) pair difference
divided by the mean of the two unrounded columns, overwritten with NaN
wherever either unrounded column is below `min_R`. -/
def get_gauge_relative_diff (df : TGF) (min_R : ℚ) (p : Pair) (i : ℕ) : Val :=
  if (df p.fst i).ltQ min_R then Val.nan
  else if (df p.snd i).ltQ min_R then Val.nan
  else
    Val.div (get_gauge_diff df p i)
      (Val.div (Val.add (df p.fst i) (df p.snd i)) (Val.fin 2))

/-- The `(df_three_gauges > min_R).any(axis=1)` row predicate. -/
def anyGtMinR (df : TGF) (min_R : ℚ) (i : ℕ) : Bool :=
  (df GaugeId.g1 i).gtQ min_R || (df GaugeId.g2 i).gtQ min_R ||
    (df GaugeId.g3 i).gtQ min_R

/-- Model of `validity_from_relative_diff`: gauge `g` is not valid at a
row iff some gauge exceeds `min_R` there and one of `g`'s two signed
relative differences exceeds the threshold. -/
def validity_from_relative_diff (df : TGF)
    (max_allowed_relative_diff min_R : ℚ) (g : GaugeId) (i : ℕ) : Bool :=
  !(anyGtMinR df min_R i &&
    ((Val.smul (sign_of g (pairs g).1)
        (get_gauge_relative_diff df min_R (pairs g).1 i)).gtQ
          max_allowed_relative_diff ||
     (Val.smul (sign_of g (pairs g).2)
        (get_gauge_relative_diff df min_R (pairs g).2 i)).gtQ
          max_allowed_relative_diff))

/-- Observations of a row: the non-NaN cells (pandas `skipna`). -/
def obsList (vs : List Val) : List Val :=
  vs.filter (fun v => !v.isNaN)

/-- Model of `DataFrame.mean(axis=1)` over one row with the default
`skipna=True`: the mean of the non-NaN cells, NaN when there are none. -/
def rowMeanSkipNaN (vs : List Val) : Val :=
  if (obsList vs).length = 0 then Val.nan
  else Val.div ((obsList vs).foldl Val.add (Val.fin 0))
         (Val.fin ((obsList vs).length))

/-- The fused validity mask computed inside `combine_gauges`
(`df_valid_combo = df_gauge_valid_from_zeros & df_gauge_valid_from_diff`),
with each detector run on its own rolled copy of the raw frame and its
own scaled `min_R`. -/
def df_valid_combo (df : TGF) (n hours_to_average_for_diff : ℕ)
    (max_allowed_relative_diff min_R : ℚ) (hours_to_average_for_zeros : ℕ)
    (g : GaugeId) (i : ℕ) : Bool :=
  validity_from_zeros (rolled df (60 * hours_to_average_for_zeros) n)
      (min_R / hours_to_average_for_zeros) g i &&
  validity_from_relative_diff (rolled df (60 * hours_to_average_for_diff) n)
      max_allowed_relative_diff (min_R / hours_to_average_for_diff) g i

/-- Model of `combine_gauges`: mask the raw frame with the fused validity
mask and take the row mean (`df[df_valid_combo].mean(axis=1)`); masked-out
cells become NaN, so the row mean runs over the raw values of the valid
gauges, skipping NaN. -/
def combine_gauges (df : TGF) (n hours_to_average_for_diff : ℕ)
    (max_allowed_relative_diff min_R : ℚ) (hours_to_average_for_zeros : ℕ)
    (i : ℕ) : Val :=
  rowMeanSkipNaN
    ((gauge_ids.filter (fun g =>
        df_valid_combo df n hours_to_average_for_diff
          max_allowed_relative_diff min_R hours_to_average_for_zeros g i)).map
      (fun g => df g i))

/-- Abstract model of the pandas primitive
`df.rolling(window=w, center=True).corr()` restricted to one ordered pair
of columns: a floating-point library computation (windowed Pearson
correlation) that `gauge_corr` consumes; its arguments are the window
length, the two columns, and the row. -/
abbrev CorrKernel := ℕ → (ℕ → Val) → (ℕ → Val) → ℕ → Val

/-- Model of `gauge_corr`: per pair, the rolling correlation of the two
columns with every value greater than 1 overwritten by 0
(`df[df > 1] = 0`). -/
def gauge_corr (corrKernel : CorrKernel) (df : TGF)
    (corr_window_length : ℕ) (p : Pair) (i : ℕ) : Val :=
  if (corrKernel corr_window_length (df p.fst) (df p.snd) i).gtQ 1
  then Val.fin 0
  else corrKernel corr_window_length (df p.fst) (df p.snd) i

/-- Model of `validity_from_corr`: a gauge is valid iff the correlation of
at least one of its two pairs is at least `min_corr`. -/
def validity_from_corr (df_corr_three_pairs : Pair → ℕ → Val)
    (min_corr : ℚ) (g : GaugeId) (i : ℕ) : Bool :=
  (df_corr_three_pairs (pairs g).1 i).geQ min_corr ||
    (df_corr_three_pairs (pairs g).2 i).geQ min_corr

/-- Model of `wmo_correction`: `R_calib = (R_raw / 1.16) ** (1 / 0.92)`.
The floating-point power is modelled by exact real exponentiation, which
is the one transcendental computation of the module. -/
noncomputable def wmo_correction (R_raw : ℝ) : ℝ :=
  (R_raw / 1.16) ^ ((1 : ℝ) / 0.92)

/-- Specification-side rendering, for refinement comparison, of the
CombinedSeries sentence: the arithmetic mean, over exactly the gauges
whose fused ValidityMask entry is true, of their raw values, computed
with IEEE NaN propagation (an undefined member makes the mean undefined),
and NaN when no gauge is valid. -/
def specCombinedSeries (df : TGF) (n hD : ℕ) (maxRel min_R : ℚ) (hZ : ℕ)
    (i : ℕ) : Val :=
  if ((gauge_ids.filter (fun g =>
        df_valid_combo df n hD maxRel min_R hZ g i)).length = 0)
  then Val.nan
  else
    Val.div
      (((gauge_ids.filter (fun g =>
          df_valid_combo df n hD maxRel min_R hZ g i)).map
            (fun g => df g i)).foldl Val.add (Val.fin 0))
      (Val.fin ((gauge_ids.filter (fun g =>
          df_valid_combo df n hD maxRel min_R hZ g i)).length))

/-- Specification-side rendering of a plain three-reading arithmetic mean
with IEEE NaN propagation. -/
def specPlainMean3 (a b c : Val) : Val :=
  Val.div (Val.add (Val.add a b) c) (Val.fin 3)

/-- Concrete one-row frame: NaN for gauge 1 and the value 2 for gauges 2
and 3. -/
def frameNan22 : TGF := fun g _ =>
  match g with
  | GaugeId.g1 => Val.nan
  | GaugeId.g2 => Val.fin 2
  | GaugeId.g3 => Val.fin 2

/-- Concrete one-row frame with readings 2.0, 2.2 and NaN. -/
def frame2_22_nan : TGF := fun g _ =>
  match g with
  | GaugeId.g1 => Val.fin 2
  | GaugeId.g2 => Val.fin (11 / 5)
  | GaugeId.g3 => Val.nan

/-- Concrete constant frame with readings 0, 1 and 1. -/
def frameZero11 : TGF := fun g _ =>
  match g with
  | GaugeId.g1 => Val.fin 0
  | GaugeId.g2 => Val.fin 1
  | GaugeId.g3 => Val.fin 1

/-- Concrete constant frame with readings 10, 10 and 1. -/
def frame10_10_1 : TGF := fun g _ =>
  match g with
  | GaugeId.g1 => Val.fin 10
  | GaugeId.g2 => Val.fin 10
  | GaugeId.g3 => Val.fin 1

/-- Concrete all-zero frame. -/
def frameZeros : TGF := fun _ _ => Val.fin 0

/-- Concrete all-NaN frame. -/
def frameAllNan : TGF := fun _ _ => Val.nan

/-- Concrete all-one frame. -/
def frameOnes : TGF := fun _ _ => Val.fin 1

/-- Concrete all-NaN pair-keyed frame. -/
def nanPairFrame : Pair → ℕ → Val := fun _ _ => Val.nan

/-- Boolean shape of the two invalid-by-default detectors. -/
lemma bool_not_and_or_eq_false (a b c : Bool) :
    (!(a && (b || c))) = false ↔ (a = true ∧ (b = true ∨ c = true)) := by
  cases a <;> cases b <;> cases c <;> simp

/-- Boolean shape of the row-wise `any` over the three gauges. -/
lemma bool_or3_eq_true (a b c : Bool) :
    ((a || b || c) = true) ↔ (a = true ∨ b = true ∨ c = true) := by
  cases a <;> cases b <;> cases c <;> simp

/-- Claim C3: `validity_from_relative_diff` marks gauge `g` invalid at a
row iff at least one of the three gauges exceeds `min_R` there and one of
the two signed relative differences of `g`'s pairs exceeds the threshold,
the sign being `-1` when `g` is listed first in the pair string and `1`
otherwise. -/
theorem validity_from_relative_diff_invalid_iff :
    ∀ (df : TGF) (maxRel min_R : ℚ) (g : GaugeId) (i : ℕ),
      validity_from_relative_diff df maxRel min_R g i = false ↔
        (((df GaugeId.g1 i).gtQ min_R = true ∨
          (df GaugeId.g2 i).gtQ min_R = true ∨
          (df GaugeId.g3 i).gtQ min_R = true) ∧
         ((Val.smul (if (pairs g).1.fst = g then -1 else 1)
             (get_gauge_relative_diff df min_R (pairs g).1 i)).gtQ maxRel
               = true ∨
          (Val.smul (if (pairs g).2.fst = g then -1 else 1)
             (get_gauge_relative_diff df min_R (pairs g).2 i)).gtQ maxRel
               = true)) := by
  intro df maxRel min_R g i
  simp only [validity_from_relative_diff, anyGtMinR, sign_of,
    bool_not_and_or_eq_false, bool_or3_eq_true]

/-- Claim C4: `validity_from_zeros` marks gauge `g` invalid at a row iff
its value rounded to ten decimals equals zero and one of the other two
rounded values strictly exceeds `min_R`; and when all three gauges read
zero and `min_R` is nonnegative, all three are valid. -/
theorem validity_from_zeros_invalid_iff :
    (∀ (df : TGF) (min_R : ℚ) (g : GaugeId) (i : ℕ),
      validity_from_zeros df min_R g i = false ↔
        ((df g i).round10.eqZero = true ∧
         ((df (otherGauges g).1 i).round10.gtQ min_R = true ∨
          (df (otherGauges g).2 i).round10.gtQ min_R = true)))
    ∧ (∀ (df : TGF) (min_R : ℚ) (i : ℕ), 0 ≤ min_R →
        (∀ g, df g i = Val.fin 0) →
        ∀ g, validity_from_zeros df min_R g i = true) := by
  constructor
  · intro df min_R g i
    simp only [validity_from_zeros, bool_not_and_or_eq_false]
  · intro df min_R i hmin hall g
    have h0 : Val.round10 (Val.fin 0) = Val.fin 0 := by
      with_unfolding_all rfl
    have hgt : (Val.fin 0).gtQ min_R = false := by
      simpa [Val.gtQ] using hmin
    simp [validity_from_zeros, hall g, hall (otherGauges g).1,
      hall (otherGauges g).2, h0, hgt]

/-- Claim C5: the relative-difference entry for a pair is NaN where either
unrounded value is below `min_R`, and elsewhere equals the difference of
the two values rounded to ten decimals, divided by the mean of the two
unrounded values. -/
theorem get_gauge_relative_diff_eq :
    ∀ (df : TGF) (min_R : ℚ) (p : Pair) (i : ℕ),
      get_gauge_relative_diff df min_R p i =
        if ((df p.fst i).ltQ min_R || (df p.snd i).ltQ min_R)
        then Val.nan
        else
          Val.div (Val.sub ((df p.fst i).round10) ((df p.snd i).round10))
            (Val.div (Val.add (df p.fst i) (df p.snd i)) (Val.fin 2)) := by
  intro df min_R p i
  cases h1 : (df p.fst i).ltQ min_R <;>
    cases h2 : (df p.snd i).ltQ min_R <;>
      simp [get_gauge_relative_diff, get_gauge_diff, h1, h2]

/-- Claim C7: `gauge_corr` replaces every pair correlation strictly
greater than 1 by 0 before any threshold comparison, and
`validity_from_corr` marks a gauge valid iff at least one of its two pair
correlations is at least `min_corr` (a valid-by-default convention). -/
theorem corr_clamp_and_threshold :
    ∀ (K : CorrKernel) (df : TGF) (w : ℕ) (min_corr : ℚ) (p : Pair)
      (g : GaugeId) (i : ℕ),
      gauge_corr K df w p i =
        (if (K w (df p.fst) (df p.snd) i).gtQ 1 then Val.fin 0
         else K w (df p.fst) (df p.snd) i)
      ∧ (validity_from_corr (gauge_corr K df w) min_corr g i = true ↔
          ((gauge_corr K df w (pairs g).1 i).geQ min_corr = true ∨
           (gauge_corr K df w (pairs g).2 i).geQ min_corr = true)) := by
  intro K df w min_corr p g i
  exact ⟨rfl, by simp [validity_from_corr, Bool.or_eq_true]⟩

/-- Claim C8: NaN never triggers invalidity: a NaN rolled value is not
flagged by `validity_from_zeros`; a NaN relative-difference entry makes
the signed threshold comparison false, and a gauge both of whose entries
are NaN stays valid in `validity_from_relative_diff`; a NaN pair
correlation does not satisfy the `>= min_corr` criterion of
`validity_from_corr`, and a gauge both of whose pair correlations are NaN
is not valid there. -/
theorem nan_never_triggers :
    (∀ (df : TGF) (min_R : ℚ) (g : GaugeId) (i : ℕ),
      df g i = Val.nan → validity_from_zeros df min_R g i = true)
    ∧ (∀ (df : TGF) (min_R maxRel s : ℚ) (p : Pair) (i : ℕ),
        get_gauge_relative_diff df min_R p i = Val.nan →
        (Val.smul s (get_gauge_relative_diff df min_R p i)).gtQ maxRel
          = false)
    ∧ (∀ (df : TGF) (maxRel min_R : ℚ) (g : GaugeId) (i : ℕ),
        get_gauge_relative_diff df min_R (pairs g).1 i = Val.nan →
        get_gauge_relative_diff df min_R (pairs g).2 i = Val.nan →
        validity_from_relative_diff df maxRel min_R g i = true)
    ∧ (∀ (c : Pair → ℕ → Val) (min_corr : ℚ) (g : GaugeId) (i : ℕ),
        c (pairs g).1 i = Val.nan → c (pairs g).2 i = Val.nan →
        validity_from_corr c min_corr g i = false) := by
  refine ⟨?_, ?_, ?_, ?_⟩
  · intro df min_R g i h
    simp [validity_from_zeros, h, Val.round10, Val.eqZero]
  · intro df min_R maxRel s p i h
    simp [h, Val.smul, Val.gtQ]
  · intro df maxRel min_R g i h1 h2
    simp [validity_from_relative_diff, h1, h2, Val.smul, Val.gtQ]
  · intro c min_corr g i h1 h2
    simp [validity_from_corr, h1, h2, Val.geQ]

/-- Witness for claim C8 at concrete all-NaN inputs. -/
theorem nan_never_triggers_witness :
    validity_from_zeros frameAllNan 0 GaugeId.g1 0 = true ∧
    (Val.smul 1 (get_gauge_relative_diff frameAllNan 0 Pair.p12 0)).gtQ 0
      = false ∧
    validity_from_relative_diff frameAllNan 0 0 GaugeId.g1 0 = true ∧
    validity_from_corr nanPairFrame 0 GaugeId.g1 0 = false :=
  ⟨nan_never_triggers.1 frameAllNan 0 GaugeId.g1 0 rfl,
   nan_never_triggers.2.1 frameAllNan 0 0 1 Pair.p12 0 (by decide),
   nan_never_triggers.2.2.1 frameAllNan 0 0 GaugeId.g1 0 (by decide)
     (by decide),
   nan_never_triggers.2.2.2 nanPairFrame 0 GaugeId.g1 0 rfl rfl⟩

/-- Witness for claim C4 at the concrete all-zero frame. -/
theorem validity_from_zeros_invalid_iff_witness :
    validity_from_zeros frameZeros 0 GaugeId.g1 0 = true :=
  validity_from_zeros_invalid_iff.2 frameZeros 0 0 le_rfl (fun _ => rfl)
    GaugeId.g1

/-- Claim C2: the fused validity used by `combine_gauges` is the logical
AND, per gauge per row, of the zero detector run on the short-window
rolled frame and the relative-difference detector run on the long-window
rolled frame; if either constituent is false, the fused entry is
false. -/
theorem fused_validity_conjunctive :
    ∀ (df : TGF) (n hD : ℕ) (maxRel min_R : ℚ) (hZ : ℕ) (g : GaugeId)
      (i : ℕ),
      (df_valid_combo df n hD maxRel min_R hZ g i =
        (validity_from_zeros (rolled df (60 * hZ) n) (min_R / hZ) g i &&
         validity_from_relative_diff (rolled df (60 * hD) n) maxRel
           (min_R / hD) g i))
      ∧ ((validity_from_zeros (rolled df (60 * hZ) n) (min_R / hZ) g i
            = false ∨
          validity_from_relative_diff (rolled df (60 * hD) n) maxRel
            (min_R / hD) g i = false) →
         df_valid_combo df n hD maxRel min_R hZ g i = false) := by
  intro df n hD maxRel min_R hZ g i
  refine ⟨rfl, ?_⟩
  intro h
  rcases h with h | h <;> simp [df_valid_combo, h]

set_option maxRecDepth 400000 in
/-- Witness for claim C2: a constant frame whose gauge 1 reads zero while
the other two read 1; at the one row with a full one-hour window, the
zero detector rejects gauge 1, so the fused mask is false there. -/
theorem fused_validity_conjunctive_witness :
    df_valid_combo frameZero11 60 1 (3 / 10) (1 / 2) 1 GaugeId.g1 30
      = false :=
  (fused_validity_conjunctive frameZero11 60 1 (3 / 10) (1 / 2) 1
      GaugeId.g1 30).2 (Or.inl (by with_unfolding_all rfl))

/-- Claim C6: at a row where the (rolled) gauges read 10, 10 and 1, with
threshold `0.3` and any floor `min_R` between 0 and 1, the
relative-difference detector marks gauge 3 invalid and gauges 1 and 2
valid. -/
theorem relative_diff_low_outlier_invalid :
    ∀ (df : TGF) (min_R : ℚ) (i : ℕ),
      df GaugeId.g1 i = Val.fin 10 → df GaugeId.g2 i = Val.fin 10 →
      df GaugeId.g3 i = Val.fin 1 → 0 ≤ min_R → min_R ≤ 1 →
      validity_from_relative_diff df (3 / 10) min_R GaugeId.g3 i = false ∧
      validity_from_relative_diff df (3 / 10) min_R GaugeId.g1 i = true ∧
      validity_from_relative_diff df (3 / 10) min_R GaugeId.g2 i = true := by
  intro df min_R i h1 h2 h3 hm0 hm1
  have hlt10 : (Val.fin 10).ltQ min_R = false := by
    simp [Val.ltQ]
    linarith
  have hlt1 : (Val.fin 1).ltQ min_R = false := by
    simp [Val.ltQ]
    linarith
  have hgt10 : (Val.fin 10).gtQ min_R = true := by
    simp [Val.gtQ]
    linarith
  have hA : (Val.smul 1
      (Val.div (Val.sub ((Val.fin 10).round10) ((Val.fin 1).round10))
        (Val.div (Val.add (Val.fin 10) (Val.fin 1)) (Val.fin 2)))).gtQ
        (3 / 10) = true := by with_unfolding_all rfl
  have hB : (Val.smul (-1)
      (Val.div (Val.sub ((Val.fin 10).round10) ((Val.fin 1).round10))
        (Val.div (Val.add (Val.fin 10) (Val.fin 1)) (Val.fin 2)))).gtQ
        (3 / 10) = false := by with_unfolding_all rfl
  have hC : (Val.smul (-1)
      (Val.div (Val.sub ((Val.fin 10).round10) ((Val.fin 10).round10))
        (Val.div (Val.add (Val.fin 10) (Val.fin 10)) (Val.fin 2)))).gtQ
        (3 / 10) = false := by with_unfolding_all rfl
  have hD : (Val.smul 1
      (Val.div (Val.sub ((Val.fin 10).round10) ((Val.fin 10).round10))
        (Val.div (Val.add (Val.fin 10) (Val.fin 10)) (Val.fin 2)))).gtQ
        (3 / 10) = false := by with_unfolding_all rfl
  refine ⟨?_, ?_, ?_⟩ <;>
    simp [validity_from_relative_diff, anyGtMinR, sign_of, pairs,
      Pair.fst, Pair.snd, get_gauge_relative_diff, get_gauge_diff,
      h1, h2, h3, hlt10, hlt1, hgt10, hA, hB, hC, hD]

/-- Witness for claim C6 at the concrete constant frame (10, 10, 1) with
floor one half. -/
theorem relative_diff_low_outlier_invalid_witness :
    validity_from_relative_diff frame10_10_1 (3 / 10) (1 / 2) GaugeId.g3 0
      = false ∧
    validity_from_relative_diff frame10_10_1 (3 / 10) (1 / 2) GaugeId.g1 0
      = true ∧
    validity_from_relative_diff frame10_10_1 (3 / 10) (1 / 2) GaugeId.g2 0
      = true :=
  relative_diff_low_outlier_invalid frame10_10_1 (1 / 2) 0 rfl rfl rfl
    (by norm_num) (by norm_num)

/-- Claim C9: `wmo_correction` computes `(R_raw / 1.16) ^ (1 / 0.92)`
elementwise, is strictly increasing for positive arguments, and maps
`1.16` to `1`. -/
theorem wmo_correction_monotone_and_unit :
    (∀ R : ℝ, wmo_correction R = (R / 1.16) ^ ((1 : ℝ) / 0.92))
    ∧ (∀ x y : ℝ, 0 < x → x < y → wmo_correction x < wmo_correction y)
    ∧ wmo_correction 1.16 = 1 := by
  refine ⟨fun _ => rfl, ?_, ?_⟩
  · intro x y hx hxy
    have h1 : (0 : ℝ) ≤ x / 1.16 := div_nonneg hx.le (by norm_num)
    have h2 : x / 1.16 < y / 1.16 := div_lt_div_of_pos_right hxy (by norm_num)
    have h3 : (0 : ℝ) < (1 : ℝ) / 0.92 := by norm_num
    exact Real.rpow_lt_rpow h1 h2 h3
  · have h : (1.16 : ℝ) / 1.16 = 1 := by norm_num
    show ((1.16 : ℝ) / 1.16) ^ ((1 : ℝ) / 0.92) = 1
    rw [h, Real.one_rpow]

/-- Witness for claim C9 atop the concrete pair 1 < 2. -/
theorem wmo_correction_monotone_and_unit_witness :
    (0 : ℝ) < 1 ∧ (1 : ℝ) < 2 ∧ wmo_correction 1 < wmo_correction 2 :=
  ⟨by norm_num, by norm_num,
   wmo_correction_monotone_and_unit.2.1 1 2 (by norm_num) (by norm_num)⟩

/-- Claim C1, counterexample: on a one-row frame reading (NaN, 2, 2) with
the default parameters, all three gauges are fused-valid (a NaN raw value
is never flagged), yet `combine_gauges` returns 2 — the NaN raw value of
the valid gauge 1 is skipped — while the claim's NaN-propagating mean
over the valid gauges is NaN. -/
theorem combine_gauges_not_nan_propagating_mean :
    df_valid_combo frameNan22 1 24 (3 / 10) (1 / 2) 1 GaugeId.g1 0 = true ∧
    combine_gauges frameNan22 1 24 (3 / 10) (1 / 2) 1 0 = Val.fin 2 ∧
    specCombinedSeries frameNan22 1 24 (3 / 10) (1 / 2) 1 0 = Val.nan ∧
    Val.fin 2 ≠ Val.nan := by
  refine ⟨by with_unfolding_all rfl, by with_unfolding_all rfl,
    by with_unfolding_all rfl, by decide⟩

/-- Claim C1 as amended: `combine_gauges` returns, at each row, the
arithmetic mean over the gauges that are fused-valid AND have a non-NaN
raw value, of the original raw values, and NaN when no such gauge exists;
in particular for raw values (2.0, 2.2, NaN) with gauges 1 and 2
fused-valid the result is 2.1. -/
theorem combine_gauges_mean_of_valid_defined :
    (∀ (df : TGF) (n hD : ℕ) (maxRel min_R : ℚ) (hZ : ℕ) (i : ℕ),
      combine_gauges df n hD maxRel min_R hZ i =
        (if (obsList ((gauge_ids.filter (fun g =>
              df_valid_combo df n hD maxRel min_R hZ g i)).map
                (fun g => df g i))).length = 0
         then Val.nan
         else
           Val.div
             ((obsList ((gauge_ids.filter (fun g =>
                 df_valid_combo df n hD maxRel min_R hZ g i)).map
                   (fun g => df g i))).foldl Val.add (Val.fin 0))
             (Val.fin ((obsList ((gauge_ids.filter (fun g =>
                 df_valid_combo df n hD maxRel min_R hZ g i)).map
                   (fun g => df g i))).length))))
    ∧ (∀ (df : TGF) (n hD : ℕ) (maxRel min_R : ℚ) (hZ : ℕ) (i : ℕ),
        df GaugeId.g1 i = Val.fin 2 → df GaugeId.g2 i = Val.fin (11 / 5) →
        df GaugeId.g3 i = Val.nan →
        df_valid_combo df n hD maxRel min_R hZ GaugeId.g1 i = true →
        df_valid_combo df n hD maxRel min_R hZ GaugeId.g2 i = true →
        combine_gauges df n hD maxRel min_R hZ i = Val.fin (21 / 10)) := by
  constructor
  · intro df n hD maxRel min_R hZ i
    rfl
  · intro df n hD maxRel min_R hZ i h1 h2 h3 hv1 hv2
    have e3 : rowMeanSkipNaN [Val.fin 2, Val.fin (11 / 5), Val.nan]
        = Val.fin (21 / 10) := by with_unfolding_all rfl
    have e2 : rowMeanSkipNaN [Val.fin 2, Val.fin (11 / 5)]
        = Val.fin (21 / 10) := by with_unfolding_all rfl
    cases hb : df_valid_combo df n hD maxRel min_R hZ GaugeId.g3 i <;>
      simp [combine_gauges, gauge_ids, h1, h2, h3, hv1, hv2, hb, e2, e3]

/-- Witness for claim C1 at a concrete one-row frame reading
(2, 2.2, NaN). -/
theorem combine_gauges_mean_of_valid_defined_witness :
    combine_gauges frame2_22_nan 1 24 (3 / 10) (1 / 2) 1 0
      = Val.fin (21 / 10) :=
  combine_gauges_mean_of_valid_defined.2 frame2_22_nan 1 24 (3 / 10)
    (1 / 2) 1 0 rfl rfl rfl (by with_unfolding_all rfl)
    (by with_unfolding_all rfl)

/-- Claim C10, counterexample: on a one-row frame reading (NaN, 2, 2)
both centered windows are truncated, yet `combine_gauges` returns 2 —
the NaN raw value is skipped — while the claim's plain NaN-propagating
mean of the three raw readings is NaN. -/
theorem edge_combined_not_plain_mean :
    ¬ fullWindowAt (60 * 24) 1 0 ∧ ¬ fullWindowAt (60 * 1) 1 0 ∧
    combine_gauges frameNan22 1 24 (3 / 10) (1 / 2) 1 0 = Val.fin 2 ∧
    specPlainMean3 (frameNan22 GaugeId.g1 0) (frameNan22 GaugeId.g2 0)
      (frameNan22 GaugeId.g3 0) = Val.nan ∧
    Val.fin 2 ≠ Val.nan := by
  refine ⟨by decide, by decide, by with_unfolding_all rfl,
    by with_unfolding_all rfl, by decide⟩

/-- Claim C10 as amended: at every row where the centered windows of both
detectors are truncated, the rolled means are NaN, both detectors mark
all three gauges valid, and `combine_gauges` returns the row mean of the
non-NaN original raw readings (NaN only when all three are NaN). -/
theorem edge_window_all_valid_mean :
    ∀ (df : TGF) (n hD : ℕ) (maxRel min_R : ℚ) (hZ : ℕ) (i : ℕ),
      ¬ fullWindowAt (60 * hD) n i → ¬ fullWindowAt (60 * hZ) n i →
      (∀ g : GaugeId,
        rollingMeanCentered (60 * hD) n (df g) i = Val.nan ∧
        rollingMeanCentered (60 * hZ) n (df g) i = Val.nan) ∧
      (∀ g : GaugeId,
        validity_from_zeros (rolled df (60 * hZ) n) (min_R / hZ) g i
          = true ∧
        validity_from_relative_diff (rolled df (60 * hD) n) maxRel
          (min_R / hD) g i = true) ∧
      combine_gauges df n hD maxRel min_R hZ i =
        rowMeanSkipNaN [df GaugeId.g1 i, df GaugeId.g2 i,
          df GaugeId.g3 i] := by
  intro df n hD maxRel min_R hZ i hWD hWZ
  have hrD : ∀ g : GaugeId,
      rollingMeanCentered (60 * hD) n (df g) i = Val.nan := by
    intro g
    rw [rollingMeanCentered, if_neg hWD]
  have hrZ : ∀ g : GaugeId,
      rollingMeanCentered (60 * hZ) n (df g) i = Val.nan := by
    intro g
    rw [rollingMeanCentered, if_neg hWZ]
  have hz : ∀ g : GaugeId,
      validity_from_zeros (rolled df (60 * hZ) n) (min_R / hZ) g i
        = true := by
    intro g
    simp [validity_from_zeros, rolled, hrZ, Val.round10, Val.eqZero]
  have hd : ∀ g : GaugeId,
      validity_from_relative_diff (rolled df (60 * hD) n) maxRel
        (min_R / hD) g i = true := by
    intro g
    simp [validity_from_relative_diff, anyGtMinR, rolled, hrD, Val.gtQ]
  have hv : ∀ g : GaugeId,
      df_valid_combo df n hD maxRel min_R hZ g i = true := by
    intro g
    simp [df_valid_combo, hz g, hd g]
  refine ⟨fun g => ⟨hrD g, hrZ g⟩, fun g => ⟨hz g, hd g⟩, ?_⟩
  simp [combine_gauges, gauge_ids, hv]

/-- Witness for claim C10 at a concrete one-row all-one frame, where both
centered windows are truncated. -/
theorem edge_window_all_valid_mean_witness :
    combine_gauges frameOnes 1 24 (3 / 10) (1 / 2) 1 0 =
      rowMeanSkipNaN [Val.fin 1, Val.fin 1, Val.fin 1] := by
  have h := edge_window_all_valid_mean frameOnes 1 24 (3 / 10) (1 / 2) 1 0
    (by decide) (by decide)
  exact h.2.2

end Cologauge
